import Mathlib

/-!
Verification of the OTel load generator (`otel-loadgen.py`).

The Python source is shallowly embedded below: machine-level concerns are
modelled with `Int`/`Nat`, every random draw (`random.randint`, `random.random`,
`random.choice`, `os.urandom(..).hex()`) becomes an explicit input recorded in a
"random tape" structure, with a `Valid` predicate capturing the ranges the
Python random calls guarantee, and the mutable globals `BATCH_INDEX`,
`SERVICE_PREFIX`, `SERVICE_COUNT`, `ERROR_EVERY`, `ENABLE_INTERSERVICE`,
`INTERSERVICE_RATIO` become explicit parameters (threaded through a config
record), exactly as the spec's design notes prescribe.
-/

namespace OtelLoadgen

/-! ## Python value domain and OTLP tagged values (`otlp_value`, lines 67-74) -/

/-- The scalar Python values the generator passes to `otlp_value`:
booleans, ints, floats, and strings.  Float payloads are carried as `Rat`;
the code only moves them around, never computes with them. -/
inductive PyVal where
  | bool (b : Bool)
  | int (n : Int)
  | float (q : Rat)
  | str (s : String)
deriving DecidableEq

/-- The tagged OTLP wire value: exactly one of the four tag fields is set,
mirroring the dicts `{"boolValue": _}`, `{"intValue": _}`, `{"doubleValue": _}`,
`{"stringValue": _}` produced by `otlp_value`.  `intValue` carries a string,
as on the wire. -/
inductive OtlpVal where
  | boolValue (b : Bool)
  | intValue (s : String)
  | doubleValue (q : Rat)
  | stringValue (s : String)
deriving DecidableEq

/-- Decimal digits of a natural number, least significant first
(empty for 0).  Building block of Python's `str(int)`. -/
def natToDigitsRev : Nat → List Char
  | 0 => []
  | n + 1 => Char.ofNat (48 + (n + 1) % 10) :: natToDigitsRev ((n + 1) / 10)
termination_by n => n
decreasing_by simp_wf; omega

/-- Python's `str` on a nonnegative integer: decimal digits, `"0"` for zero. -/
def natToString (n : Nat) : String :=
  if n = 0 then "0" else String.mk (natToDigitsRev n).reverse

/-- Python's `str(value)` for `value : int`: decimal digits with a leading
minus sign for negative numbers. -/
def intToString (n : Int) : String :=
  if n < 0 then "-" ++ natToString (-n).toNat else natToString n.toNat

/-- `otel-loadgen.py` lines 67-74.  The `isinstance(value, bool)` test runs
first, so Python booleans (which are also ints) reach the `boolValue` branch,
ints are string-encoded into `intValue`, floats keep the numeric
`doubleValue` field, and everything else is `str`-converted into
`stringValue`; in this program only strings reach that branch. -/
def otlp_value : PyVal → OtlpVal
  | .bool b => .boolValue b
  | .int n => .intValue (intToString n)
  | .float q => .doubleValue q
  | .str s => .stringValue s

/-- One key/value attribute, as built by `otlp_attr` (lines 77-78). -/
structure Attr where
  key : String
  value : OtlpVal
deriving DecidableEq

/-- `otel-loadgen.py` lines 77-78. -/
def otlp_attr (key : String) (value : PyVal) : Attr :=
  ⟨key, otlp_value value⟩

/-! Decoding a tagged wire value back into a Python value (used to state the
round-trip property of `otlp_value`). -/

/-- Value of a most-significant-first decimal digit list. -/
def digitListVal (l : List Char) : Nat :=
  l.foldl (fun a c => a * 10 + (c.toNat - 48)) 0

/-- Parse the decimal string encoding of an integer (the inverse of
`intToString` on its range). -/
def parseIntString (s : String) : Int :=
  match s.data with
  | '-' :: rest => -(digitListVal rest : Int)
  | l => (digitListVal l : Int)

/-- Partial inverse of `otlp_value`: recover the semantic Python value
from the tagged wire representation. -/
def otlp_decode : OtlpVal → PyVal
  | .boolValue b => .bool b
  | .intValue s => .int (parseIntString s)
  | .doubleValue q => .float q
  | .stringValue s => .str s

/-! ## Span factory (`ensure_end`, `span`; lines 55, 81-127) -/

/-- `NS_PER_MS = 1_000_000` (line 55). -/
def NS_PER_MS : Int := 1000000

/-- `otel-loadgen.py` lines 81-85: clamp an end timestamp forward to
`start + minimum_duration` when it does not strictly exceed the start. -/
def ensure_end (start_ns end_ns : Int) (minimum_duration_ms : Int) : Int :=
  if end_ns ≤ start_ns then start_ns + minimum_duration_ms * NS_PER_MS
  else end_ns

/-- One span record as serialized by `span` (lines 92-127):
`startTimeUnixNano`/`endTimeUnixNano` are kept as integers (the JSON layer
stringifies them), `parentSpanId = none` models the field being omitted, and
`status = none` models the absent status object. -/
structure Span where
  traceId : String
  spanId : String
  name : String
  kind : Nat
  startTimeUnixNano : Int
  endTimeUnixNano : Int
  attributes : List Attr
  parentSpanId : Option String
  status : Option String
deriving DecidableEq

/-- `otel-loadgen.py` lines 92-127.  `batch` is the global `BATCH_INDEX`
made explicit.  The two marker attributes are prepended, caller attributes
follow in order, `endTimeUnixNano` passes through `ensure_end` with the
default 1 ms floor, `parentSpanId` appears only for a non-empty (truthy)
`parent_id`, and `error = true` adds the error status and appends the
`error` attribute `{"stringValue": "true"}` (line 125). -/
def span (batch : Int) (trace_id span_id name : String) (start_ns end_ns : Int)
    (kind : Nat) (parent_id : String) (attrs : List Attr) (error : Bool) : Span :=
  let attributes :=
    [otlp_attr "loadgen.marker" (.bool true),
     otlp_attr "loadgen.batch" (.int batch)] ++ attrs
  { traceId := trace_id
    spanId := span_id
    name := name
    kind := kind
    startTimeUnixNano := start_ns
    endTimeUnixNano := ensure_end start_ns end_ns 1
    attributes :=
      if error then attributes ++ [⟨"error", .stringValue "true"⟩] else attributes
    parentSpanId := if parent_id = "" then none else some parent_id
    status := if error then some "STATUS_CODE_ERROR" else none }

/-! ## Python dict semantics for the service → spans grouping maps

The builders keep spans in a `dict` keyed by service name, in insertion
order.  We model it as an association list with insertion-ordered keys:
assignment replaces in place (keeping the key's position) or appends a fresh
key at the end, and `d[k].append(s)` appends to the (first) entry for `k`. -/

/-- Python `d[k] = v` on an insertion-ordered dict. -/
def dictSet (d : List (String × List Span)) (k : String) (v : List Span) :
    List (String × List Span) :=
  if d.any (fun p => p.1 = k) then
    d.map (fun p => if p.1 = k then (p.1, v) else p)
  else d ++ [(k, v)]

/-- Python `d[k].append(s)` on an insertion-ordered dict (no-op when the key
is absent; every use in the source targets a key created beforehand). -/
def dictAppend (d : List (String × List Span)) (k : String) (s : Span) :
    List (String × List Span) :=
  d.map (fun p => if p.1 = k then (p.1, p.2 ++ [s]) else p)

/-! ## Single-service topology builder (`build_single_service_trace`, lines 185-242) -/

/-- The random draws (and generated span ids) consumed by one call of
`build_single_service_trace`, in source order. -/
structure SingleRand where
  root_span_id : String
  db_span_id : String
  cache_span_id : String
  root_duration_ms : Int
  db_off_ms : Int
  db_dur_ms : Int
  cache_off_ms : Int
  cache_dur_ms : Int
  cache_hit : Bool

/-- The ranges `random.randint` guarantees for the draws of
`build_single_service_trace`, plus nonemptiness of the 16-hex-char span ids
produced by `new_span_id`. -/
structure SingleRand.Valid (r : SingleRand) : Prop where
  root_id_ne : r.root_span_id ≠ ""
  db_id_ne : r.db_span_id ≠ ""
  cache_id_ne : r.cache_span_id ≠ ""
  root_dur_lb : 30 ≤ r.root_duration_ms
  root_dur_ub : r.root_duration_ms ≤ 120
  db_off_lb : 5 ≤ r.db_off_ms
  db_off_ub : r.db_off_ms ≤ 12
  db_dur_lb : 4 ≤ r.db_dur_ms
  db_dur_ub : r.db_dur_ms ≤ 14
  cache_off_lb : 9 ≤ r.cache_off_ms
  cache_off_ub : r.cache_off_ms ≤ 16
  cache_dur_lb : 2 ≤ r.cache_dur_ms
  cache_dur_ub : r.cache_dur_ms ≤ 10

/-- The non-random arguments of `build_single_service_trace` (its four
parameters plus the global `BATCH_INDEX`). -/
structure SingleCtx where
  batch : Int
  trace_id : String
  service_name : String
  trace_start : Int
  trace_error : Bool
  r : SingleRand

namespace Single

/-- `root_end = trace_start + randint(30, 120) * NS_PER_MS` (lines 189-190). -/
def root_end (c : SingleCtx) : Int :=
  c.trace_start + c.r.root_duration_ms * NS_PER_MS

/-- `db_start` (line 192). -/
def db_start (c : SingleCtx) : Int :=
  c.trace_start + c.r.db_off_ms * NS_PER_MS

/-- `db_end` (line 193). -/
def db_end (c : SingleCtx) : Int :=
  db_start c + c.r.db_dur_ms * NS_PER_MS

/-- `cache_start` (line 195). -/
def cache_start (c : SingleCtx) : Int :=
  c.trace_start + c.r.cache_off_ms * NS_PER_MS

/-- `cache_end` (line 196). -/
def cache_end (c : SingleCtx) : Int :=
  cache_start c + c.r.cache_dur_ms * NS_PER_MS

/-- The root `GET /api/loadgen` span (lines 199-212). -/
def rootSpan (c : SingleCtx) : Span :=
  span c.batch c.trace_id c.r.root_span_id "GET /api/loadgen" c.trace_start
    (root_end c) 2 ""
    [otlp_attr "http.method" (.str "GET"),
     otlp_attr "http.route" (.str "/api/loadgen"),
     otlp_attr "loadgen.trace.profile" (.str "single-service")]
    c.trace_error

/-- The `db.query` child span (lines 213-226). -/
def dbSpan (c : SingleCtx) : Span :=
  span c.batch c.trace_id c.r.db_span_id "db.query" (db_start c) (db_end c) 1
    c.r.root_span_id
    [otlp_attr "db.system" (.str "postgresql"),
     otlp_attr "db.operation" (.str "SELECT")]
    c.trace_error

/-- The `cache.lookup` child span (lines 227-239). -/
def cacheSpan (c : SingleCtx) : Span :=
  span c.batch c.trace_id c.r.cache_span_id "cache.lookup" (cache_start c)
    (cache_end c) 1 c.r.root_span_id
    [otlp_attr "cache.system" (.str "redis"),
     otlp_attr "cache.hit" (.bool c.r.cache_hit)]
    false

end Single

/-- `otel-loadgen.py` lines 185-242: one service, three spans
(root, db.query, cache.lookup) in generation order. -/
def build_single_service_trace (c : SingleCtx) : List (String × List Span) :=
  [(c.service_name, [Single.rootSpan c, Single.dbSpan c, Single.cacheSpan c])]

/-! ## Inter-service topology builder (`build_interservice_trace`, lines 245-522) -/

/-- The random draws (and generated span ids) consumed by one call of
`build_interservice_trace`, in source order.  `msg_branch` records the
outcome of the `random.random() < 0.65` coin at line 467; the producer and
worker draws are consumed only when it is true. -/
structure InterRand where
  root_span_id : String
  edge_to_checkout_id : String
  checkout_server_id : String
  checkout_db_id : String
  checkout_to_payments_id : String
  payments_server_id : String
  payments_db_id : String
  checkout_to_inventory_id : String
  inventory_server_id : String
  inv_cache_id : String
  producer_span_id : String
  worker_consume_id : String
  worker_db_id : String
  root_duration_ms : Int
  e2c_off_ms : Int
  e2c_dur_ms : Int
  cs_off_ms : Int
  cs_back_ms : Int
  cdb_off_ms : Int
  cdb_dur_ms : Int
  c2p_off_ms : Int
  c2p_dur_ms : Int
  ps_off_ms : Int
  ps_back_ms : Int
  pdb_off_ms : Int
  pdb_dur_ms : Int
  c2i_off_ms : Int
  c2i_dur_ms : Int
  is_off_ms : Int
  is_back_ms : Int
  ic_off_ms : Int
  ic_dur_ms : Int
  inv_cache_hit : Bool
  msg_branch : Bool
  prod_off_ms : Int
  prod_dur_ms : Int
  w_off_ms : Int
  w_dur_ms : Int
  wdb_off_ms : Int
  wdb_dur_ms : Int

/-- The `random.randint` ranges of the draws of `build_interservice_trace`,
plus nonemptiness of the `new_span_id` outputs. -/
structure InterRand.Valid (r : InterRand) : Prop where
  root_id_ne : r.root_span_id ≠ ""
  e2c_id_ne : r.edge_to_checkout_id ≠ ""
  cs_id_ne : r.checkout_server_id ≠ ""
  cdb_id_ne : r.checkout_db_id ≠ ""
  c2p_id_ne : r.checkout_to_payments_id ≠ ""
  ps_id_ne : r.payments_server_id ≠ ""
  pdb_id_ne : r.payments_db_id ≠ ""
  c2i_id_ne : r.checkout_to_inventory_id ≠ ""
  is_id_ne : r.inventory_server_id ≠ ""
  ic_id_ne : r.inv_cache_id ≠ ""
  prod_id_ne : r.producer_span_id ≠ ""
  wc_id_ne : r.worker_consume_id ≠ ""
  wdb_id_ne : r.worker_db_id ≠ ""
  root_dur_lb : 120 ≤ r.root_duration_ms
  root_dur_ub : r.root_duration_ms ≤ 280
  e2c_off_lb : 2 ≤ r.e2c_off_ms
  e2c_off_ub : r.e2c_off_ms ≤ 8
  e2c_dur_lb : 50 ≤ r.e2c_dur_ms
  e2c_dur_ub : r.e2c_dur_ms ≤ 140
  cs_off_lb : 1 ≤ r.cs_off_ms
  cs_off_ub : r.cs_off_ms ≤ 3
  cs_back_lb : 2 ≤ r.cs_back_ms
  cs_back_ub : r.cs_back_ms ≤ 6
  cdb_off_lb : 3 ≤ r.cdb_off_ms
  cdb_off_ub : r.cdb_off_ms ≤ 9
  cdb_dur_lb : 8 ≤ r.cdb_dur_ms
  cdb_dur_ub : r.cdb_dur_ms ≤ 18
  c2p_off_lb : 8 ≤ r.c2p_off_ms
  c2p_off_ub : r.c2p_off_ms ≤ 18
  c2p_dur_lb : 20 ≤ r.c2p_dur_ms
  c2p_dur_ub : r.c2p_dur_ms ≤ 60
  ps_off_lb : 1 ≤ r.ps_off_ms
  ps_off_ub : r.ps_off_ms ≤ 4
  ps_back_lb : 1 ≤ r.ps_back_ms
  ps_back_ub : r.ps_back_ms ≤ 4
  pdb_off_lb : 2 ≤ r.pdb_off_ms
  pdb_off_ub : r.pdb_off_ms ≤ 8
  pdb_dur_lb : 6 ≤ r.pdb_dur_ms
  pdb_dur_ub : r.pdb_dur_ms ≤ 16
  c2i_off_lb : 12 ≤ r.c2i_off_ms
  c2i_off_ub : r.c2i_off_ms ≤ 22
  c2i_dur_lb : 15 ≤ r.c2i_dur_ms
  c2i_dur_ub : r.c2i_dur_ms ≤ 50
  is_off_lb : 1 ≤ r.is_off_ms
  is_off_ub : r.is_off_ms ≤ 3
  is_back_lb : 1 ≤ r.is_back_ms
  is_back_ub : r.is_back_ms ≤ 3
  ic_off_lb : 2 ≤ r.ic_off_ms
  ic_off_ub : r.ic_off_ms ≤ 6
  ic_dur_lb : 3 ≤ r.ic_dur_ms
  ic_dur_ub : r.ic_dur_ms ≤ 10
  prod_off_lb : 28 ≤ r.prod_off_ms
  prod_off_ub : r.prod_off_ms ≤ 44
  prod_dur_lb : 3 ≤ r.prod_dur_ms
  prod_dur_ub : r.prod_dur_ms ≤ 9
  w_off_lb : 2 ≤ r.w_off_ms
  w_off_ub : r.w_off_ms ≤ 7
  w_dur_lb : 12 ≤ r.w_dur_ms
  w_dur_ub : r.w_dur_ms ≤ 40
  wdb_off_lb : 2 ≤ r.wdb_off_ms
  wdb_off_ub : r.wdb_off_ms ≤ 6
  wdb_dur_lb : 5 ≤ r.wdb_dur_ms
  wdb_dur_ub : r.wdb_dur_ms ≤ 13

/-- The non-random inputs of `build_interservice_trace`: its four parameters
plus the globals `BATCH_INDEX` and `SERVICE_PREFIX`. -/
structure InterCtx where
  batch : Int
  servicePrefix : String
  trace_id : String
  edge_service : String
  trace_start : Int
  trace_error : Bool
  r : InterRand

namespace Inter

/-- `checkout_service` (line 248). -/
def checkoutName (p : String) : String := p ++ "-checkout"

/-- `payments_service` (line 249). -/
def paymentsName (p : String) : String := p ++ "-payments"

/-- `inventory_service` (line 250). -/
def inventoryName (p : String) : String := p ++ "-inventory"

/-- `worker_service` (line 251). -/
def workerName (p : String) : String := p ++ "-worker"

/-- `root_end` (lines 261-262). -/
def root_end (c : InterCtx) : Int :=
  c.trace_start + c.r.root_duration_ms * NS_PER_MS

/-- `edge_to_checkout_start` (line 265). -/
def edge_to_checkout_start (c : InterCtx) : Int :=
  c.trace_start + c.r.e2c_off_ms * NS_PER_MS

/-- `edge_to_checkout_end` (lines 266-268): raw end, capped at
`root_end - 15 ms`, then through `ensure_end` with an 8 ms floor. -/
def edge_to_checkout_end (c : InterCtx) : Int :=
  ensure_end (edge_to_checkout_start c)
    (min (edge_to_checkout_start c + c.r.e2c_dur_ms * NS_PER_MS)
      (root_end c - 15 * NS_PER_MS)) 8

/-- `checkout_server_start` (line 271). -/
def checkout_server_start (c : InterCtx) : Int :=
  edge_to_checkout_start c + c.r.cs_off_ms * NS_PER_MS

/-- `checkout_server_end` (lines 272-273). -/
def checkout_server_end (c : InterCtx) : Int :=
  ensure_end (checkout_server_start c)
    (edge_to_checkout_end c - c.r.cs_back_ms * NS_PER_MS) 10

/-- `checkout_db_start` (line 327). -/
def checkout_db_start (c : InterCtx) : Int :=
  checkout_server_start c + c.r.cdb_off_ms * NS_PER_MS

/-- `checkout_db_end` (line 328). -/
def checkout_db_end (c : InterCtx) : Int :=
  checkout_db_start c + c.r.cdb_dur_ms * NS_PER_MS

/-- `checkout_to_payments_start` (lines 346-348). -/
def checkout_to_payments_start (c : InterCtx) : Int :=
  checkout_server_start c + c.r.c2p_off_ms * NS_PER_MS

/-- `checkout_to_payments_end` (lines 349-351): note there is no cap against
the parent `checkout_server_end` here. -/
def checkout_to_payments_end (c : InterCtx) : Int :=
  checkout_to_payments_start c + c.r.c2p_dur_ms * NS_PER_MS

/-- `payments_server_start` (lines 353-355). -/
def payments_server_start (c : InterCtx) : Int :=
  checkout_to_payments_start c + c.r.ps_off_ms * NS_PER_MS

/-- `payments_server_end` (lines 356-357). -/
def payments_server_end (c : InterCtx) : Int :=
  ensure_end (payments_server_start c)
    (checkout_to_payments_end c - c.r.ps_back_ms * NS_PER_MS) 6

/-- `payments_db_start` (line 389). -/
def payments_db_start (c : InterCtx) : Int :=
  payments_server_start c + c.r.pdb_off_ms * NS_PER_MS

/-- `payments_db_end` (line 390). -/
def payments_db_end (c : InterCtx) : Int :=
  payments_db_start c + c.r.pdb_dur_ms * NS_PER_MS

/-- `checkout_to_inventory_start` (lines 409-411). -/
def checkout_to_inventory_start (c : InterCtx) : Int :=
  checkout_server_start c + c.r.c2i_off_ms * NS_PER_MS

/-- `checkout_to_inventory_end` (lines 412-414): no cap against the parent
`checkout_server_end`. -/
def checkout_to_inventory_end (c : InterCtx) : Int :=
  checkout_to_inventory_start c + c.r.c2i_dur_ms * NS_PER_MS

/-- `inventory_server_start` (lines 416-418). -/
def inventory_server_start (c : InterCtx) : Int :=
  checkout_to_inventory_start c + c.r.is_off_ms * NS_PER_MS

/-- `inventory_server_end` (lines 419-420). -/
def inventory_server_end (c : InterCtx) : Int :=
  ensure_end (inventory_server_start c)
    (checkout_to_inventory_end c - c.r.is_back_ms * NS_PER_MS) 6

/-- inventory `cache_start` (line 449). -/
def inv_cache_start (c : InterCtx) : Int :=
  inventory_server_start c + c.r.ic_off_ms * NS_PER_MS

/-- inventory `cache_end` (line 450). -/
def inv_cache_end (c : InterCtx) : Int :=
  inv_cache_start c + c.r.ic_dur_ms * NS_PER_MS

/-- `producer_start` (line 469). -/
def producer_start (c : InterCtx) : Int :=
  checkout_server_start c + c.r.prod_off_ms * NS_PER_MS

/-- `producer_end` (line 470): no cap against `checkout_server_end`. -/
def producer_end (c : InterCtx) : Int :=
  producer_start c + c.r.prod_dur_ms * NS_PER_MS

/-- `worker_start` (line 488). -/
def worker_start (c : InterCtx) : Int :=
  producer_start c + c.r.w_off_ms * NS_PER_MS

/-- `worker_end` (line 489): no cap against the parent `producer_end`. -/
def worker_end (c : InterCtx) : Int :=
  worker_start c + c.r.w_dur_ms * NS_PER_MS

/-- `worker_db_start` (line 490). -/
def worker_db_start (c : InterCtx) : Int :=
  worker_start c + c.r.wdb_off_ms * NS_PER_MS

/-- `worker_db_end` (line 491). -/
def worker_db_end (c : InterCtx) : Int :=
  worker_db_start c + c.r.wdb_dur_ms * NS_PER_MS

/-- The root `GET /api/checkout` span at the edge service (lines 275-290). -/
def rootSpan (c : InterCtx) : Span :=
  span c.batch c.trace_id c.r.root_span_id "GET /api/checkout" c.trace_start
    (root_end c) 2 ""
    [otlp_attr "http.method" (.str "GET"),
     otlp_attr "http.route" (.str "/api/checkout"),
     otlp_attr "loadgen.trace.profile" (.str "inter-service")]
    c.trace_error

/-- The `checkout RPC` client span at the edge service (lines 291-307). -/
def edgeToCheckoutSpan (c : InterCtx) : Span :=
  span c.batch c.trace_id c.r.edge_to_checkout_id "checkout RPC"
    (edge_to_checkout_start c) (edge_to_checkout_end c) 3 c.r.root_span_id
    [otlp_attr "rpc.system" (.str "http"),
     otlp_attr "rpc.service" (.str (checkoutName c.servicePrefix)),
     otlp_attr "peer.service" (.str (checkoutName c.servicePrefix))]
    c.trace_error

/-- The `POST /checkout` server span at the checkout service (lines 309-325). -/
def checkoutServerSpan (c : InterCtx) : Span :=
  span c.batch c.trace_id c.r.checkout_server_id "POST /checkout"
    (checkout_server_start c) (checkout_server_end c) 2 c.r.edge_to_checkout_id
    [otlp_attr "http.method" (.str "POST"),
     otlp_attr "http.route" (.str "/checkout"),
     otlp_attr "upstream.service" (.str c.edge_service)]
    c.trace_error

/-- The `orders DB query` span at the checkout service (lines 329-343). -/
def checkoutDbSpan (c : InterCtx) : Span :=
  span c.batch c.trace_id c.r.checkout_db_id "orders DB query"
    (checkout_db_start c) (checkout_db_end c) 1 c.r.checkout_server_id
    [otlp_attr "db.system" (.str "postgresql"),
     otlp_attr "db.operation" (.str "SELECT")]
    false

/-- The `payments RPC` client span at the checkout service (lines 359-371). -/
def checkoutToPaymentsSpan (c : InterCtx) : Span :=
  span c.batch c.trace_id c.r.checkout_to_payments_id "payments RPC"
    (checkout_to_payments_start c) (checkout_to_payments_end c) 3
    c.r.checkout_server_id
    [otlp_attr "peer.service" (.str (paymentsName c.servicePrefix))]
    c.trace_error

/-- The `POST /payments/charge` server span at the payments service
(lines 372-387). -/
def paymentsServerSpan (c : InterCtx) : Span :=
  span c.batch c.trace_id c.r.payments_server_id "POST /payments/charge"
    (payments_server_start c) (payments_server_end c) 2
    c.r.checkout_to_payments_id
    [otlp_attr "http.method" (.str "POST"),
     otlp_attr "http.route" (.str "/payments/charge")]
    c.trace_error

/-- The `payments DB write` span at the payments service (lines 391-406). -/
def paymentsDbSpan (c : InterCtx) : Span :=
  span c.batch c.trace_id c.r.payments_db_id "payments DB write"
    (payments_db_start c) (payments_db_end c) 1 c.r.payments_server_id
    [otlp_attr "db.system" (.str "postgresql"),
     otlp_attr "db.operation" (.str "INSERT")]
    c.trace_error

/-- The `inventory RPC` client span at the checkout service (lines 422-433). -/
def checkoutToInventorySpan (c : InterCtx) : Span :=
  span c.batch c.trace_id c.r.checkout_to_inventory_id "inventory RPC"
    (checkout_to_inventory_start c) (checkout_to_inventory_end c) 3
    c.r.checkout_server_id
    [otlp_attr "peer.service" (.str (inventoryName c.servicePrefix))]
    false

/-- The `GET /inventory/reserve` server span at the inventory service
(lines 434-448). -/
def inventoryServerSpan (c : InterCtx) : Span :=
  span c.batch c.trace_id c.r.inventory_server_id "GET /inventory/reserve"
    (inventory_server_start c) (inventory_server_end c) 2
    c.r.checkout_to_inventory_id
    [otlp_attr "http.method" (.str "GET"),
     otlp_attr "http.route" (.str "/inventory/reserve")]
    false

/-- The `inventory cache lookup` span at the inventory service
(lines 451-465). -/
def invCacheSpan (c : InterCtx) : Span :=
  span c.batch c.trace_id c.r.inv_cache_id "inventory cache lookup"
    (inv_cache_start c) (inv_cache_end c) 1 c.r.inventory_server_id
    [otlp_attr "cache.system" (.str "redis"),
     otlp_attr "cache.hit" (.bool c.r.inv_cache_hit)]
    false

/-- The `order.events publish` producer span at the checkout service
(lines 471-485), emitted only on the 0.65 branch. -/
def producerSpan (c : InterCtx) : Span :=
  span c.batch c.trace_id c.r.producer_span_id "order.events publish"
    (producer_start c) (producer_end c) 4 c.r.checkout_server_id
    [otlp_attr "messaging.system" (.str "kafka"),
     otlp_attr "messaging.destination" (.str "order-events")]
    false

/-- The `order.events consume` consumer span at the worker service
(lines 494-506), emitted only on the 0.65 branch. -/
def workerConsumeSpan (c : InterCtx) : Span :=
  span c.batch c.trace_id c.r.worker_consume_id "order.events consume"
    (worker_start c) (worker_end c) 5 c.r.producer_span_id
    [otlp_attr "messaging.system" (.str "kafka"),
     otlp_attr "messaging.destination" (.str "order-events")]
    false

/-- The `fulfillment DB update` span at the worker service (lines 507-519),
emitted only on the 0.65 branch. -/
def workerDbSpan (c : InterCtx) : Span :=
  span c.batch c.trace_id c.r.worker_db_id "fulfillment DB update"
    (worker_db_start c) (worker_db_end c) 1 c.r.worker_consume_id
    [otlp_attr "db.system" (.str "postgresql"),
     otlp_attr "db.operation" (.str "UPDATE")]
    false

end Inter

/-- `otel-loadgen.py` lines 245-522: the service → spans dict is created with
the four always-present keys (lines 253-258), spans are appended to it in
source order, and on the `random.random() < 0.65` branch (line 467) the
producer span is appended and the worker service's two spans are assigned
under the worker key. -/
def build_interservice_trace (c : InterCtx) : List (String × List Span) :=
  let checkout_service := Inter.checkoutName c.servicePrefix
  let payments_service := Inter.paymentsName c.servicePrefix
  let inventory_service := Inter.inventoryName c.servicePrefix
  let worker_service := Inter.workerName c.servicePrefix
  let d := dictSet (dictSet (dictSet (dictSet [] c.edge_service [])
    checkout_service []) payments_service []) inventory_service []
  let d := dictAppend d c.edge_service (Inter.rootSpan c)
  let d := dictAppend d c.edge_service (Inter.edgeToCheckoutSpan c)
  let d := dictAppend d checkout_service (Inter.checkoutServerSpan c)
  let d := dictAppend d checkout_service (Inter.checkoutDbSpan c)
  let d := dictAppend d checkout_service (Inter.checkoutToPaymentsSpan c)
  let d := dictAppend d payments_service (Inter.paymentsServerSpan c)
  let d := dictAppend d payments_service (Inter.paymentsDbSpan c)
  let d := dictAppend d checkout_service (Inter.checkoutToInventorySpan c)
  let d := dictAppend d inventory_service (Inter.inventoryServerSpan c)
  let d := dictAppend d inventory_service (Inter.invCacheSpan c)
  if c.r.msg_branch then
    let d := dictAppend d checkout_service (Inter.producerSpan c)
    dictSet d worker_service [Inter.workerConsumeSpan c, Inter.workerDbSpan c]
  else d

/-! ## Trace batch assembler (`build_payload`, lines 130-182) -/

/-- `resource` of one resource-span group. -/
structure Resource where
  attributes : List Attr
deriving DecidableEq

/-- `scope` of one scope-span group (line 168). -/
structure Scope where
  name : String
  version : String
deriving DecidableEq

/-- One element of `scopeSpans` (lines 166-171). -/
structure ScopeSpans where
  scope : Scope
  spans : List Span
deriving DecidableEq

/-- One element of `resourceSpans` (lines 157-173). -/
structure ResourceSpans where
  resource : Resource
  scopeSpans : List ScopeSpans
deriving DecidableEq

/-- The wire payload `{"resourceSpans": [...]}` (line 176). -/
structure Payload where
  resourceSpans : List ResourceSpans
deriving DecidableEq

/-- The statistics dict returned alongside the payload (lines 177-181). -/
structure Stats where
  span_count : Nat
  interservice_traces : Nat
  resource_span_count : Nat
deriving DecidableEq

/-- The configuration globals `build_payload` reads (lines 43-58), made
explicit: `BATCH_INDEX`, `SERVICE_PREFIX`, `SERVICE_COUNT` (≥ 1),
`ERROR_EVERY` (≥ 1), `ENABLE_INTERSERVICE`, `INTERSERVICE_RATIO`
(clamped to [0, 1] at load time). -/
structure Config where
  batchIndex : Nat
  servicePrefix : String
  serviceCount : Nat
  errorEvery : Nat
  enableInterservice : Bool
  interserviceRatio : Rat

/-- The random draws consumed for one trace of a batch: the trace id
(line 137), the `random.random()` coin of line 144, and the tapes of the two
topology builders (only the one selected by the coin is consumed). -/
structure TraceRand where
  trace_id : String
  coin : Rat
  single : SingleRand
  inter : InterRand

/-- Line 142: `trace_error = (BATCH_INDEX + idx) % ERROR_EVERY == 0`. -/
def trace_error (batchIndex idx errorEvery : Nat) : Bool :=
  (batchIndex + idx) % errorEvery == 0

/-- Lines 138-140: `edge_service = f"{SERVICE_PREFIX}-edge-{(BATCH_INDEX + idx) % SERVICE_COUNT + 1}"`. -/
def edge_service_name (cfg : Config) (idx : Nat) : String :=
  cfg.servicePrefix ++ "-edge-" ++ toString ((cfg.batchIndex + idx) % cfg.serviceCount + 1)

/-- Line 144: `use_interservice = ENABLE_INTERSERVICE and random.random() < INTERSERVICE_RATIO`. -/
def use_interservice (cfg : Config) (tr : TraceRand) : Bool :=
  cfg.enableInterservice && decide (tr.coin < cfg.interserviceRatio)

/-- Lines 137-153, one iteration of the trace loop: trace start offset,
error decision, weighted topology choice, and the chosen builder's
service → spans map. -/
def buildTrace (cfg : Config) (now : Int) (idx : Nat) (tr : TraceRand) :
    List (String × List Span) :=
  let trace_start := now + (idx : Int) * 4 * NS_PER_MS
  let err := trace_error cfg.batchIndex idx cfg.errorEvery
  if use_interservice cfg tr then
    build_interservice_trace
      { batch := (cfg.batchIndex : Int), servicePrefix := cfg.servicePrefix,
        trace_id := tr.trace_id, edge_service := edge_service_name cfg idx,
        trace_start := trace_start, trace_error := err, r := tr.inter }
  else
    build_single_service_trace
      { batch := (cfg.batchIndex : Int), trace_id := tr.trace_id,
        service_name := edge_service_name cfg idx, trace_start := trace_start,
        trace_error := err, r := tr.single }

/-- Lines 155-173: wrap one (service, spans) group of a trace into its
resource-span entry with the fixed resource and scope attributes. -/
def resourceEntry (cfg : Config) (g : String × List Span) : ResourceSpans :=
  { resource :=
      { attributes :=
          [otlp_attr "service.name" (.str g.1),
           otlp_attr "service.namespace" (.str cfg.servicePrefix),
           otlp_attr "deployment.environment" (.str "load-test")] }
    scopeSpans := [{ scope := { name := "dash-otel-loadgen", version := "2.0.0" },
                     spans := g.2 }] }

/-- `otel-loadgen.py` lines 130-182.  The trace loop is a fold over the
indexed list of per-trace random tapes (`TRACES_PER_BATCH` is the length of
`rands`); `now` is the `time.time_ns()` reading of line 131.  Accumulates the
resource-span list, the running span total, and the number of inter-service
traces; `build_payload` folds it and returns the payload with the statistics
dict. -/
def payloadStep (cfg : Config) (now : Int)
    (acc : List ResourceSpans × Nat × Nat) (p : Nat × TraceRand) :
    List ResourceSpans × Nat × Nat :=
  let trace_services := buildTrace cfg now p.1 p.2
  (acc.1 ++ trace_services.map (resourceEntry cfg),
   acc.2.1 + (trace_services.map (fun g => g.2.length)).sum,
   acc.2.2 + if use_interservice cfg p.2 then 1 else 0)

def build_payload (cfg : Config) (now : Int) (rands : List TraceRand) :
    Payload × Stats :=
  let folded := rands.enum.foldl (payloadStep cfg now) ([], 0, 0)
  (⟨folded.1⟩,
   { span_count := folded.2.1, interservice_traces := folded.2.2,
     resource_span_count := folded.1.length })

/-! ## Derived views used in the statements -/

/-- The three spans of a single-service trace in the order `span` is called
(root, db.query, cache.lookup), i.e. generation order. -/
def singleSpansInOrder (c : SingleCtx) : List Span :=
  [Single.rootSpan c, Single.dbSpan c, Single.cacheSpan c]

/-- The spans of an inter-service trace in the order `span` is called
(lines 275-519), i.e. generation order. -/
def interSpansInOrder (c : InterCtx) : List Span :=
  [Inter.rootSpan c, Inter.edgeToCheckoutSpan c, Inter.checkoutServerSpan c,
   Inter.checkoutDbSpan c, Inter.checkoutToPaymentsSpan c,
   Inter.paymentsServerSpan c, Inter.paymentsDbSpan c,
   Inter.checkoutToInventorySpan c, Inter.inventoryServerSpan c,
   Inter.invCacheSpan c] ++
  (if c.r.msg_branch then
    [Inter.producerSpan c, Inter.workerConsumeSpan c, Inter.workerDbSpan c]
  else [])

/-- Sum of the span-list lengths across the emitted resource groups of a
payload (the quantity the batch statistics claim compares against). -/
def groupsSpanSum (rs : List ResourceSpans) : Nat :=
  (rs.map (fun g => (g.scopeSpans.map (fun ss => ss.spans.length)).sum)).sum

/-! ## Concrete sample tapes (used by witnesses and counterexamples) -/

/-- An in-range single-service tape. -/
def sampleSingleRand : SingleRand :=
  { root_span_id := "s01", db_span_id := "s02", cache_span_id := "s03",
    root_duration_ms := 30, db_off_ms := 5, db_dur_ms := 4,
    cache_off_ms := 9, cache_dur_ms := 2, cache_hit := true }

/-- An in-range inter-service tape with the messaging branch taken. -/
def sampleInterRand : InterRand :=
  { root_span_id := "i01", edge_to_checkout_id := "i02",
    checkout_server_id := "i03", checkout_db_id := "i04",
    checkout_to_payments_id := "i05", payments_server_id := "i06",
    payments_db_id := "i07", checkout_to_inventory_id := "i08",
    inventory_server_id := "i09", inv_cache_id := "i10",
    producer_span_id := "i11", worker_consume_id := "i12",
    worker_db_id := "i13",
    root_duration_ms := 120, e2c_off_ms := 2, e2c_dur_ms := 50,
    cs_off_ms := 1, cs_back_ms := 2, cdb_off_ms := 3, cdb_dur_ms := 8,
    c2p_off_ms := 8, c2p_dur_ms := 20, ps_off_ms := 1, ps_back_ms := 1,
    pdb_off_ms := 2, pdb_dur_ms := 6, c2i_off_ms := 12, c2i_dur_ms := 15,
    is_off_ms := 1, is_back_ms := 1, ic_off_ms := 2, ic_dur_ms := 3,
    inv_cache_hit := true, msg_branch := true,
    prod_off_ms := 28, prod_dur_ms := 3, w_off_ms := 2, w_dur_ms := 12,
    wdb_off_ms := 2, wdb_dur_ms := 5 }

/-- An in-range inter-service tape on which the `payments RPC` span ends
37 ms after its parent `POST /checkout` server span ends: the edge → checkout
RPC draws the shortest duration (50 ms) while the checkout → payments call
starts late (18 ms) and draws the longest duration (60 ms). -/
def breakInterRand : InterRand :=
  { sampleInterRand with
    cs_off_ms := 3, cs_back_ms := 6, c2p_off_ms := 18, c2p_dur_ms := 60,
    msg_branch := false }

/-- A sample context for the single-service builder. -/
def sampleSingleCtx : SingleCtx :=
  { batch := 0, trace_id := "t1", service_name := "svc-edge-1",
    trace_start := 0, trace_error := false, r := sampleSingleRand }

/-- A sample context for the inter-service builder. -/
def sampleInterCtx : InterCtx :=
  { batch := 0, servicePrefix := "svc", trace_id := "t1",
    edge_service := "svc-edge-1", trace_start := 0, trace_error := false,
    r := sampleInterRand }

/-- The context exhibiting the containment violation of `breakInterRand`. -/
def breakInterCtx : InterCtx :=
  { sampleInterCtx with r := breakInterRand }

/-- A sample batch configuration with the inter-service ratio forced to 0. -/
def sampleCfg0 : Config :=
  { batchIndex := 0, servicePrefix := "svc", serviceCount := 3,
    errorEvery := 7, enableInterservice := true, interserviceRatio := 0 }

/-- A sample batch configuration with the inter-service ratio forced to 1. -/
def sampleCfg1 : Config :=
  { sampleCfg0 with interserviceRatio := 1 }

/-- A sample per-trace random tape. -/
def sampleTraceRand : TraceRand :=
  { trace_id := "t1", coin := 0, single := sampleSingleRand,
    inter := sampleInterRand }

/-! ## Helper lemmas: strings and service-name distinctness -/

theorem string_data_inj (s1 s2 : String) (h : s1.data = s2.data) : s1 = s2 := by
  cases s1; cases s2; exact congrArg String.mk h

theorem string_append_left_cancel (p a b : String) (h : p ++ a = p ++ b) :
    a = b := by
  have hd := congrArg String.data h
  simp [String.data_append] at hd
  exact string_data_inj a b hd

theorem string_append_ne (p : String) {a b : String} (h : a ≠ b) :
    p ++ a ≠ p ++ b :=
  fun hh => h (string_append_left_cancel p a b hh)

theorem edge_service_name_ne_checkoutName (cfg : Config) (idx : Nat) :
    edge_service_name cfg idx ≠ Inter.checkoutName cfg.servicePrefix := by
  unfold edge_service_name Inter.checkoutName
  rw [String.append_assoc]
  refine string_append_ne _ (fun h => ?_)
  have hd := congrArg String.data h
  simp [String.data_append] at hd

theorem edge_service_name_ne_paymentsName (cfg : Config) (idx : Nat) :
    edge_service_name cfg idx ≠ Inter.paymentsName cfg.servicePrefix := by
  unfold edge_service_name Inter.paymentsName
  rw [String.append_assoc]
  refine string_append_ne _ (fun h => ?_)
  have hd := congrArg String.data h
  simp [String.data_append] at hd

theorem edge_service_name_ne_inventoryName (cfg : Config) (idx : Nat) :
    edge_service_name cfg idx ≠ Inter.inventoryName cfg.servicePrefix := by
  unfold edge_service_name Inter.inventoryName
  rw [String.append_assoc]
  refine string_append_ne _ (fun h => ?_)
  have hd := congrArg String.data h
  simp [String.data_append] at hd

theorem edge_service_name_ne_workerName (cfg : Config) (idx : Nat) :
    edge_service_name cfg idx ≠ Inter.workerName cfg.servicePrefix := by
  unfold edge_service_name Inter.workerName
  rw [String.append_assoc]
  refine string_append_ne _ (fun h => ?_)
  have hd := congrArg String.data h
  simp [String.data_append] at hd

theorem checkoutName_ne_paymentsName (p : String) :
    Inter.checkoutName p ≠ Inter.paymentsName p :=
  string_append_ne p (by decide)

theorem checkoutName_ne_inventoryName (p : String) :
    Inter.checkoutName p ≠ Inter.inventoryName p :=
  string_append_ne p (by decide)

theorem checkoutName_ne_workerName (p : String) :
    Inter.checkoutName p ≠ Inter.workerName p :=
  string_append_ne p (by decide)

theorem paymentsName_ne_inventoryName (p : String) :
    Inter.paymentsName p ≠ Inter.inventoryName p :=
  string_append_ne p (by decide)

theorem paymentsName_ne_workerName (p : String) :
    Inter.paymentsName p ≠ Inter.workerName p :=
  string_append_ne p (by decide)

theorem inventoryName_ne_workerName (p : String) :
    Inter.inventoryName p ≠ Inter.workerName p :=
  string_append_ne p (by decide)

/-! ## Helper lemmas: shape of the builder outputs -/

/-- Unfolding the dict assembly of `build_interservice_trace`, given that the
edge service name differs from the four fixed names (always true when it
comes from `edge_service_name`). -/
theorem build_interservice_trace_eq (c : InterCtx)
    (h1 : c.edge_service ≠ Inter.checkoutName c.servicePrefix)
    (h2 : c.edge_service ≠ Inter.paymentsName c.servicePrefix)
    (h3 : c.edge_service ≠ Inter.inventoryName c.servicePrefix)
    (h4 : c.edge_service ≠ Inter.workerName c.servicePrefix) :
    build_interservice_trace c =
      (c.edge_service, [Inter.rootSpan c, Inter.edgeToCheckoutSpan c]) ::
      (Inter.checkoutName c.servicePrefix,
        [Inter.checkoutServerSpan c, Inter.checkoutDbSpan c,
         Inter.checkoutToPaymentsSpan c, Inter.checkoutToInventorySpan c] ++
        (if c.r.msg_branch then [Inter.producerSpan c] else [])) ::
      (Inter.paymentsName c.servicePrefix,
        [Inter.paymentsServerSpan c, Inter.paymentsDbSpan c]) ::
      (Inter.inventoryName c.servicePrefix,
        [Inter.inventoryServerSpan c, Inter.invCacheSpan c]) ::
      (if c.r.msg_branch then
        [(Inter.workerName c.servicePrefix,
          [Inter.workerConsumeSpan c, Inter.workerDbSpan c])]
      else []) := by
  have g1 := checkoutName_ne_paymentsName c.servicePrefix
  have g2 := checkoutName_ne_inventoryName c.servicePrefix
  have g3 := checkoutName_ne_workerName c.servicePrefix
  have g4 := paymentsName_ne_inventoryName c.servicePrefix
  have g5 := paymentsName_ne_workerName c.servicePrefix
  have g6 := inventoryName_ne_workerName c.servicePrefix
  rcases hbr : c.r.msg_branch with _ | _ <;>
    simp [build_interservice_trace, dictSet, dictAppend, hbr,
      h1, h2, h3, h4, g1, g2, g3, g4, g5, g6,
      h1.symm, h2.symm, h3.symm, h4.symm,
      g1.symm, g2.symm, g3.symm, g4.symm, g5.symm, g6.symm]

/-! ## Helper lemmas: decimal round trip of the `intValue` encoding -/

theorem char_ofNat_digit_toNat (m : Nat) (h : m < 10) :
    (Char.ofNat (48 + m)).toNat = 48 + m := by
  interval_cases m <;> decide

theorem natToDigitsRev_ne_minus (n : Nat) :
    ∀ c ∈ natToDigitsRev n, c ≠ '-' := by
  induction n using Nat.strong_induction_on with
  | _ n ih =>
    match n with
    | 0 =>
      simp [natToDigitsRev]
    | m + 1 =>
      intro c hc
      rw [natToDigitsRev] at hc
      rcases List.mem_cons.mp hc with rfl | hc2
      · have h10 : (m + 1) % 10 < 10 := Nat.mod_lt _ (by norm_num)
        have hv := char_ofNat_digit_toNat _ h10
        intro heq
        rw [heq] at hv
        have h45 : ('-').toNat = 45 := rfl
        omega
      · exact ih ((m + 1) / 10) (by omega) c hc2

theorem natToDigitsRev_ne_nil (n : Nat) (h : n ≠ 0) : natToDigitsRev n ≠ [] := by
  match n with
  | 0 => exact absurd rfl h
  | m + 1 =>
    rw [natToDigitsRev]
    exact List.cons_ne_nil _ _

theorem natToDigitsRev_foldr (n : Nat) :
    (natToDigitsRev n).foldr (fun c acc => acc * 10 + (c.toNat - 48)) 0 = n := by
  induction n using Nat.strong_induction_on with
  | _ n ih =>
    match n with
    | 0 =>
      simp [natToDigitsRev]
    | m + 1 =>
      rw [natToDigitsRev]
      simp only [List.foldr_cons]
      have h10 : (m + 1) % 10 < 10 := Nat.mod_lt _ (by norm_num)
      rw [ih ((m + 1) / 10) (by omega), char_ofNat_digit_toNat _ h10]
      omega

theorem digitListVal_reverse (l : List Char) :
    digitListVal l.reverse
      = l.foldr (fun c acc => acc * 10 + (c.toNat - 48)) 0 := by
  simp [digitListVal, List.foldl_reverse]

theorem digitListVal_natToString (n : Nat) :
    digitListVal (natToString n).data = n := by
  unfold natToString
  split
  · subst n
    decide
  · show digitListVal (natToDigitsRev n).reverse = n
    rw [digitListVal_reverse, natToDigitsRev_foldr]

theorem natToString_data_ne_nil (n : Nat) : (natToString n).data ≠ [] := by
  unfold natToString
  split
  · decide
  · show (natToDigitsRev n).reverse ≠ []
    simpa using natToDigitsRev_ne_nil n (by assumption)

theorem natToString_head_ne_minus (n : Nat) (c : Char) (rest : List Char)
    (h : (natToString n).data = c :: rest) : c ≠ '-' := by
  unfold natToString at h
  split at h
  · intro hc
    subst hc
    simp at h
  · have hmem : c ∈ (natToDigitsRev n).reverse := by
      have : c ∈ c :: rest := List.mem_cons_self c rest
      rw [← h] at this
      exact this
    exact natToDigitsRev_ne_minus n c (List.mem_reverse.mp hmem)

theorem parseIntString_intToString (n : Int) :
    parseIntString (intToString n) = n := by
  unfold intToString
  split
  · rename_i hneg
    have hd : ("-" ++ natToString (-n).toNat).data
        = '-' :: (natToString (-n).toNat).data := by
      simp [String.data_append]
    unfold parseIntString
    rw [hd]
    split
    · rename_i rest2 heq
      obtain ⟨-, hrest⟩ := List.cons.inj heq
      rw [← hrest, digitListVal_natToString]
      omega
    · rename_i hno
      exact absurd rfl (hno _)
  · rename_i hpos
    unfold parseIntString
    rcases hdata : (natToString n.toNat).data with _ | ⟨c, rest⟩
    · exact absurd hdata (natToString_data_ne_nil n.toNat)
    · have hcne : c ≠ '-' := natToString_head_ne_minus n.toNat c rest hdata
      have hval : digitListVal (c :: rest) = n.toNat := by
        rw [← hdata]
        exact digitListVal_natToString n.toNat
      split
      · rename_i rest2 heq
        obtain ⟨hc, -⟩ := List.cons.inj heq
        exact absurd hc hcne
      · rw [hval]
        omega

/-! ## Helper lemmas: parent references of the inter-service spans -/

theorem inter_parents (c : InterCtx) (h : c.r.Valid) :
    (Inter.rootSpan c).parentSpanId = none ∧
    (Inter.edgeToCheckoutSpan c).parentSpanId = some c.r.root_span_id ∧
    (Inter.checkoutServerSpan c).parentSpanId
      = some c.r.edge_to_checkout_id ∧
    (Inter.checkoutDbSpan c).parentSpanId = some c.r.checkout_server_id ∧
    (Inter.checkoutToPaymentsSpan c).parentSpanId
      = some c.r.checkout_server_id ∧
    (Inter.paymentsServerSpan c).parentSpanId
      = some c.r.checkout_to_payments_id ∧
    (Inter.paymentsDbSpan c).parentSpanId = some c.r.payments_server_id ∧
    (Inter.checkoutToInventorySpan c).parentSpanId
      = some c.r.checkout_server_id ∧
    (Inter.inventoryServerSpan c).parentSpanId
      = some c.r.checkout_to_inventory_id ∧
    (Inter.invCacheSpan c).parentSpanId = some c.r.inventory_server_id ∧
    (Inter.producerSpan c).parentSpanId = some c.r.checkout_server_id ∧
    (Inter.workerConsumeSpan c).parentSpanId = some c.r.producer_span_id ∧
    (Inter.workerDbSpan c).parentSpanId = some c.r.worker_consume_id := by
  refine ⟨?_, ?_, ?_, ?_, ?_, ?_, ?_, ?_, ?_, ?_, ?_, ?_, ?_⟩
  · simp [Inter.rootSpan, span]
  · simp [Inter.edgeToCheckoutSpan, span, h.root_id_ne]
  · simp [Inter.checkoutServerSpan, span, h.e2c_id_ne]
  · simp [Inter.checkoutDbSpan, span, h.cs_id_ne]
  · simp [Inter.checkoutToPaymentsSpan, span, h.cs_id_ne]
  · simp [Inter.paymentsServerSpan, span, h.c2p_id_ne]
  · simp [Inter.paymentsDbSpan, span, h.ps_id_ne]
  · simp [Inter.checkoutToInventorySpan, span, h.cs_id_ne]
  · simp [Inter.inventoryServerSpan, span, h.c2i_id_ne]
  · simp [Inter.invCacheSpan, span, h.is_id_ne]
  · simp [Inter.producerSpan, span, h.cs_id_ne]
  · simp [Inter.workerConsumeSpan, span, h.prod_id_ne]
  · simp [Inter.workerDbSpan, span, h.wc_id_ne]

/-! ## Helper lemmas: batch statistics fold -/

theorem groupsSpanSum_append (a b : List ResourceSpans) :
    groupsSpanSum (a ++ b) = groupsSpanSum a + groupsSpanSum b := by
  simp [groupsSpanSum]

theorem groupsSpanSum_map_resourceEntry (cfg : Config)
    (ts : List (String × List Span)) :
    groupsSpanSum (ts.map (resourceEntry cfg))
      = (ts.map fun g => g.2.length).sum := by
  unfold groupsSpanSum
  rw [List.map_map]
  congr 1

theorem foldl_payloadStep_spanSum (cfg : Config) (now : Int)
    (l : List (Nat × TraceRand)) :
    ∀ acc : List ResourceSpans × Nat × Nat,
      (l.foldl (payloadStep cfg now) acc).2.1 + groupsSpanSum acc.1
        = groupsSpanSum (l.foldl (payloadStep cfg now) acc).1 + acc.2.1 := by
  induction l with
  | nil =>
    intro acc
    simp [Nat.add_comm]
  | cons p t ih =>
    intro acc
    simp only [List.foldl_cons]
    have hrec := ih (payloadStep cfg now acc p)
    have h1 : groupsSpanSum (payloadStep cfg now acc p).1
        = groupsSpanSum acc.1
          + ((buildTrace cfg now p.1 p.2).map fun g => g.2.length).sum := by
      simp [payloadStep, groupsSpanSum_append, groupsSpanSum_map_resourceEntry]
    have h2 : (payloadStep cfg now acc p).2.1
        = acc.2.1 + ((buildTrace cfg now p.1 p.2).map fun g => g.2.length).sum :=
      rfl
    omega

theorem buildTrace_groups_ne (cfg : Config) (now : Int) (idx : Nat)
    (tr : TraceRand) : ∀ g ∈ buildTrace cfg now idx tr, g.2 ≠ [] := by
  unfold buildTrace
  split
  · rw [build_interservice_trace_eq _ (edge_service_name_ne_checkoutName cfg idx)
      (edge_service_name_ne_paymentsName cfg idx)
      (edge_service_name_ne_inventoryName cfg idx)
      (edge_service_name_ne_workerName cfg idx)]
    rcases hbr : tr.inter.msg_branch with _ | _ <;> simp [hbr]
  · simp [build_single_service_trace]

theorem foldl_payloadStep_ne (cfg : Config) (now : Int)
    (l : List (Nat × TraceRand)) :
    ∀ acc : List ResourceSpans × Nat × Nat,
      (∀ g ∈ acc.1, ∀ ss ∈ g.scopeSpans, ss.spans ≠ []) →
      ∀ g ∈ (l.foldl (payloadStep cfg now) acc).1,
        ∀ ss ∈ g.scopeSpans, ss.spans ≠ [] := by
  induction l with
  | nil =>
    intro acc h
    exact h
  | cons p t ih =>
    intro acc hacc
    refine ih _ ?_
    intro g hg
    simp only [payloadStep, List.mem_append] at hg
    rcases hg with hg | hg
    · exact hacc g hg
    · simp only [List.mem_map] at hg
      obtain ⟨gs, hgs, rfl⟩ := hg
      intro ss hss
      simp only [resourceEntry, List.mem_singleton] at hss
      subst hss
      exact buildTrace_groups_ne cfg now p.1 p.2 gs hgs

/-! ## Claim theorems -/

/-- C2: for every span the factory builds, whatever the supplied start and
end (including `end ≤ start`), the emitted end time strictly exceeds the
emitted start time; the start is emitted unchanged, an end not exceeding the
start is replaced by start plus the 1 ms default minimum duration, and a
strictly later end is emitted unchanged. -/
theorem C2_span_end_strictly_after_start (batch : Int) (tid sid nm : String)
    (start_ns end_ns : Int) (kind : Nat) (pid : String) (attrs : List Attr)
    (err : Bool) :
    (span batch tid sid nm start_ns end_ns kind pid attrs err).startTimeUnixNano
        = start_ns ∧
    start_ns <
      (span batch tid sid nm start_ns end_ns kind pid attrs err).endTimeUnixNano ∧
    (end_ns ≤ start_ns →
      (span batch tid sid nm start_ns end_ns kind pid attrs err).endTimeUnixNano
        = start_ns + 1 * NS_PER_MS) ∧
    (start_ns < end_ns →
      (span batch tid sid nm start_ns end_ns kind pid attrs err).endTimeUnixNano
        = end_ns) := by
  simp only [span, ensure_end, NS_PER_MS]
  refine ⟨?_, ?_, fun hle => ?_, fun hlt => ?_⟩ <;>
    first
      | trivial
      | (split <;> omega)

/-- Witness for C2 at a degenerate input (`end = start`): the emitted end is
pushed 1 ms past the start. -/
theorem C2_span_end_strictly_after_start_witness :
    (span 0 "t" "s" "n" 5 5 1 "" [] false).endTimeUnixNano = 5 + 1 * NS_PER_MS :=
  (C2_span_end_strictly_after_start 0 "t" "s" "n" 5 5 1 "" [] false).2.2.1
    (by decide)

/-- C3 counterexample: a span built with the error flag set carries the error
status code but its appended `error` attribute is the *string* `"true"`
(line 125 hand-writes `{"stringValue": "true"}`), not a boolean-tagged
value, contradicting the claim that the tagged value is a boolean. -/
theorem C3_counterexample :
    (span 0 "t" "s" "n" 0 5 1 "" [] true).status = some "STATUS_CODE_ERROR" ∧
    Attr.mk "error" (OtlpVal.stringValue "true")
        ∈ (span 0 "t" "s" "n" 0 5 1 "" [] true).attributes ∧
    Attr.mk "error" (OtlpVal.boolValue true)
        ∉ (span 0 "t" "s" "n" 0 5 1 "" [] true).attributes ∧
    Attr.mk "error" (OtlpVal.boolValue false)
        ∉ (span 0 "t" "s" "n" 0 5 1 "" [] true).attributes := by
  decide

/-- C3 (amended): for every span built with the error flag true, the factory
attaches the error status code and appends an `error` attribute whose tagged
value is the string `"true"` (not a boolean); with the flag false, the status
is absent and no `error` attribute is appended (the attribute list is exactly
the two markers followed by the caller's attributes). -/
theorem C3_error_status_and_string_attr (batch : Int) (tid sid nm : String)
    (s e : Int) (k : Nat) (pid : String) (attrs : List Attr) :
    ((span batch tid sid nm s e k pid attrs true).status
        = some "STATUS_CODE_ERROR" ∧
     (span batch tid sid nm s e k pid attrs true).attributes =
       [otlp_attr "loadgen.marker" (.bool true),
        otlp_attr "loadgen.batch" (.int batch)] ++ attrs ++
         [Attr.mk "error" (OtlpVal.stringValue "true")]) ∧
    ((span batch tid sid nm s e k pid attrs false).status = none ∧
     (span batch tid sid nm s e k pid attrs false).attributes =
       [otlp_attr "loadgen.marker" (.bool true),
        otlp_attr "loadgen.batch" (.int batch)] ++ attrs) := by
  simp [span]

/-- C5: the batch assembler flags trace index `i` as an error trace exactly
when `(batchIndex + i) % errorEvery = 0`; with `errorEvery = 7`, batch
index 0 and 8 traces per batch, exactly the traces at indices 0 and 7 are
error traces. -/
theorem C5_error_flag_rule :
    (∀ b i e : Nat, trace_error b i e = true ↔ (b + i) % e = 0) ∧
    (List.range 8).filter (fun i => trace_error 0 i 7) = [0, 7] := by
  constructor
  · intro b i e
    simp [trace_error]
  · decide

/-- C9: the single-service builder yields exactly one service with exactly
three spans in a two-level tree — a server-kind (2) root spanning the
trace's full 30-120 ms duration and two internal-kind (1) children
(`db.query` and `cache.lookup`) parented on the root, whose intervals lie
inside the root interval by construction (the factory's clamp never fires on
them); the db span carries the trace error flag, the cache span never does
and instead carries the drawn cache-hit boolean attribute. -/
theorem C9_single_service_shape (c : SingleCtx) (h : c.r.Valid) :
    build_single_service_trace c =
      [(c.service_name,
        [Single.rootSpan c, Single.dbSpan c, Single.cacheSpan c])] ∧
    (Single.rootSpan c).kind = 2 ∧
    (Single.dbSpan c).kind = 1 ∧
    (Single.cacheSpan c).kind = 1 ∧
    (Single.rootSpan c).name = "GET /api/loadgen" ∧
    (Single.dbSpan c).name = "db.query" ∧
    (Single.cacheSpan c).name = "cache.lookup" ∧
    (Single.rootSpan c).spanId = c.r.root_span_id ∧
    (Single.rootSpan c).parentSpanId = none ∧
    (Single.dbSpan c).parentSpanId = some c.r.root_span_id ∧
    (Single.cacheSpan c).parentSpanId = some c.r.root_span_id ∧
    (Single.rootSpan c).startTimeUnixNano = c.trace_start ∧
    (Single.rootSpan c).endTimeUnixNano
      = c.trace_start + c.r.root_duration_ms * NS_PER_MS ∧
    30 ≤ c.r.root_duration_ms ∧
    c.r.root_duration_ms ≤ 120 ∧
    (Single.dbSpan c).startTimeUnixNano = Single.db_start c ∧
    (Single.dbSpan c).endTimeUnixNano = Single.db_end c ∧
    c.trace_start ≤ Single.db_start c ∧
    Single.db_end c ≤ (Single.rootSpan c).endTimeUnixNano ∧
    (Single.cacheSpan c).startTimeUnixNano = Single.cache_start c ∧
    (Single.cacheSpan c).endTimeUnixNano = Single.cache_end c ∧
    c.trace_start ≤ Single.cache_start c ∧
    Single.cache_end c ≤ (Single.rootSpan c).endTimeUnixNano ∧
    (Single.dbSpan c).status
      = (if c.trace_error then some "STATUS_CODE_ERROR" else none) ∧
    (Single.cacheSpan c).status = none ∧
    otlp_attr "cache.hit" (PyVal.bool c.r.cache_hit)
      ∈ (Single.cacheSpan c).attributes := by
  refine ⟨rfl, rfl, rfl, rfl, rfl, rfl, rfl, rfl, ?_, ?_, ?_, rfl, ?_,
    h.root_dur_lb, h.root_dur_ub, rfl, ?_, ?_, ?_, rfl, ?_, ?_, ?_, rfl,
    rfl, ?_⟩
  · simp [Single.rootSpan, span]
  · simp [Single.dbSpan, span, h.root_id_ne]
  · simp [Single.cacheSpan, span, h.root_id_ne]
  · have := h.root_dur_lb
    simp only [Single.rootSpan, span, Single.root_end, ensure_end, NS_PER_MS]
    split <;> omega
  · have := h.db_dur_lb
    simp only [Single.dbSpan, span, Single.db_end, Single.db_start,
      ensure_end, NS_PER_MS]
    split <;> omega
  · have := h.db_off_lb
    simp only [Single.db_start, NS_PER_MS]
    omega
  · have h1 := h.db_off_ub
    have h2 := h.db_dur_ub
    have h3 := h.root_dur_lb
    simp only [Single.rootSpan, span, Single.root_end, Single.db_end,
      Single.db_start, ensure_end, NS_PER_MS]
    split <;> omega
  · have := h.cache_dur_lb
    simp only [Single.cacheSpan, span, Single.cache_end, Single.cache_start,
      ensure_end, NS_PER_MS]
    split <;> omega
  · have := h.cache_off_lb
    simp only [Single.cache_start, NS_PER_MS]
    omega
  · have h1 := h.cache_off_ub
    have h2 := h.cache_dur_ub
    have h3 := h.root_dur_lb
    simp only [Single.rootSpan, span, Single.root_end, Single.cache_end,
      Single.cache_start, ensure_end, NS_PER_MS]
    split <;> omega
  · simp [Single.cacheSpan, span]

/-- Witness for C9 at a concrete in-range tape. -/
theorem C9_single_service_shape_witness :
    build_single_service_trace sampleSingleCtx =
      [(sampleSingleCtx.service_name,
        [Single.rootSpan sampleSingleCtx, Single.dbSpan sampleSingleCtx,
         Single.cacheSpan sampleSingleCtx])] :=
  (C9_single_service_shape sampleSingleCtx (by constructor <;> decide)).1

/-- C10 counterexample: on an in-range tape with the messaging branch taken
the inter-service builder emits 13 spans, not 12 — the branch adds three
spans (the checkout producer span plus the worker's two), on top of the 10
always-present ones. -/
theorem C10_counterexample :
    sampleInterCtx.r.msg_branch = true ∧
    InterRand.Valid sampleInterCtx.r ∧
    ((build_interservice_trace sampleInterCtx).map fun g => g.2.length).sum
      = 13 := by
  refine ⟨rfl, by constructor <;> decide, ?_⟩
  rw [build_interservice_trace_eq sampleInterCtx (by decide) (by decide)
    (by decide) (by decide)]
  have hbr : sampleInterCtx.r.msg_branch = true := rfl
  simp [hbr]

/-- C10 (amended): the inter-service builder returns exactly four services
(edge, checkout, payments, inventory) totalling exactly 10 spans when the
0.65-probability messaging branch does not fire, and exactly five services
(adding worker) totalling exactly 13 spans when it does; every service in
the map has a non-empty span list. -/
theorem C10_interservice_shape (c : InterCtx)
    (h1 : c.edge_service ≠ Inter.checkoutName c.servicePrefix)
    (h2 : c.edge_service ≠ Inter.paymentsName c.servicePrefix)
    (h3 : c.edge_service ≠ Inter.inventoryName c.servicePrefix)
    (h4 : c.edge_service ≠ Inter.workerName c.servicePrefix) :
    ((build_interservice_trace c).map Prod.fst =
      if c.r.msg_branch then
        [c.edge_service, Inter.checkoutName c.servicePrefix,
         Inter.paymentsName c.servicePrefix,
         Inter.inventoryName c.servicePrefix,
         Inter.workerName c.servicePrefix]
      else
        [c.edge_service, Inter.checkoutName c.servicePrefix,
         Inter.paymentsName c.servicePrefix,
         Inter.inventoryName c.servicePrefix]) ∧
    (((build_interservice_trace c).map fun g => g.2.length).sum =
      if c.r.msg_branch then 13 else 10) ∧
    ∀ g ∈ build_interservice_trace c, g.2 ≠ [] := by
  rw [build_interservice_trace_eq c h1 h2 h3 h4]
  rcases hbr : c.r.msg_branch with _ | _ <;> simp [hbr]

/-- Witness for C10 at a concrete context (messaging branch taken). -/
theorem C10_interservice_shape_witness :
    ((build_interservice_trace sampleInterCtx).map fun g => g.2.length).sum =
      if sampleInterCtx.r.msg_branch then 13 else 10 :=
  (C10_interservice_shape sampleInterCtx (by decide) (by decide) (by decide)
    (by decide)).2.1

/-- C6: with the inter-service enable flag true and `random.random()` drawing
in `[0, 1)`, ratio 0.0 sends every trace through the single-service topology
(the group map has exactly one service) and ratio 1.0 sends every trace
through the inter-service topology (edge, checkout, payments and inventory
always keyed; worker keyed exactly when the 0.65 branch fires). -/
theorem C6_ratio_boundaries (cfg : Config) (now : Int) (idx : Nat)
    (tr : TraceRand) (hen : cfg.enableInterservice = true)
    (h0 : 0 ≤ tr.coin) (h1 : tr.coin < 1) :
    (cfg.interserviceRatio = 0 → (buildTrace cfg now idx tr).length = 1) ∧
    (cfg.interserviceRatio = 1 →
      (buildTrace cfg now idx tr).map Prod.fst =
        (if tr.inter.msg_branch then
          [edge_service_name cfg idx, Inter.checkoutName cfg.servicePrefix,
           Inter.paymentsName cfg.servicePrefix,
           Inter.inventoryName cfg.servicePrefix,
           Inter.workerName cfg.servicePrefix]
        else
          [edge_service_name cfg idx, Inter.checkoutName cfg.servicePrefix,
           Inter.paymentsName cfg.servicePrefix,
           Inter.inventoryName cfg.servicePrefix])) := by
  constructor
  · intro hr
    have hcoin : ¬ (tr.coin < cfg.interserviceRatio) := by
      rw [hr]
      exact not_lt.mpr h0
    simp [buildTrace, use_interservice, hcoin, build_single_service_trace]
  · intro hr
    have hcoin : tr.coin < cfg.interserviceRatio := by
      rw [hr]
      exact h1
    simp [buildTrace, use_interservice, hen, hcoin]
    rw [build_interservice_trace_eq _ (edge_service_name_ne_checkoutName cfg idx)
      (edge_service_name_ne_paymentsName cfg idx)
      (edge_service_name_ne_inventoryName cfg idx)
      (edge_service_name_ne_workerName cfg idx)]
    rcases hbr : tr.inter.msg_branch with _ | _ <;> simp [hbr]

/-- Witness for C6 at ratio 1.0 with coin 0 (messaging branch taken on the
sample tape). -/
theorem C6_ratio_boundaries_witness :
    (buildTrace sampleCfg1 0 0 sampleTraceRand).map Prod.fst =
      (if sampleTraceRand.inter.msg_branch then
        [edge_service_name sampleCfg1 0,
         Inter.checkoutName sampleCfg1.servicePrefix,
         Inter.paymentsName sampleCfg1.servicePrefix,
         Inter.inventoryName sampleCfg1.servicePrefix,
         Inter.workerName sampleCfg1.servicePrefix]
      else
        [edge_service_name sampleCfg1 0,
         Inter.checkoutName sampleCfg1.servicePrefix,
         Inter.paymentsName sampleCfg1.servicePrefix,
         Inter.inventoryName sampleCfg1.servicePrefix]) :=
  (C6_ratio_boundaries sampleCfg1 0 0 sampleTraceRand (by decide) (by decide)
    (by decide)).2 (by decide)

/-- C1 counterexample: on an in-range tape (shortest edge → checkout RPC,
latest-starting and longest checkout → payments RPC) the `payments RPC` span
ends 37 ms after its parent `POST /checkout` server span ends — its end is
computed from its own start plus a 20-60 ms draw with no clamp against the
parent's interval, so child containment fails as stated. -/
theorem C1_counterexample :
    InterRand.Valid breakInterCtx.r ∧
    (Inter.checkoutToPaymentsSpan breakInterCtx).parentSpanId
      = some (Inter.checkoutServerSpan breakInterCtx).spanId ∧
    (Inter.checkoutServerSpan breakInterCtx).endTimeUnixNano
      < (Inter.checkoutToPaymentsSpan breakInterCtx).endTimeUnixNano :=
  ⟨by constructor <;> decide, by decide, by decide⟩

/-- C1 (amended): in the inter-service topology every child span starts no
earlier than its parent; the four explicitly clamped children — the checkout
RPC within the root, the checkout server span within the checkout RPC, the
payments server span within the payments RPC, and the inventory server span
within the inventory RPC — end no later than their parents, and so does the
checkout `orders DB query` span (its largest offset plus duration, 27 ms,
stays below its parent's smallest duration, 41 ms); end containment does not
hold for every child: the payments RPC span can end after its parent's end
(see the counterexample). -/
theorem C1_child_timing (c : InterCtx) (h : c.r.Valid) :
    (Inter.rootSpan c).startTimeUnixNano
        ≤ (Inter.edgeToCheckoutSpan c).startTimeUnixNano ∧
    (Inter.edgeToCheckoutSpan c).startTimeUnixNano
        ≤ (Inter.checkoutServerSpan c).startTimeUnixNano ∧
    (Inter.checkoutServerSpan c).startTimeUnixNano
        ≤ (Inter.checkoutDbSpan c).startTimeUnixNano ∧
    (Inter.checkoutServerSpan c).startTimeUnixNano
        ≤ (Inter.checkoutToPaymentsSpan c).startTimeUnixNano ∧
    (Inter.checkoutToPaymentsSpan c).startTimeUnixNano
        ≤ (Inter.paymentsServerSpan c).startTimeUnixNano ∧
    (Inter.paymentsServerSpan c).startTimeUnixNano
        ≤ (Inter.paymentsDbSpan c).startTimeUnixNano ∧
    (Inter.checkoutServerSpan c).startTimeUnixNano
        ≤ (Inter.checkoutToInventorySpan c).startTimeUnixNano ∧
    (Inter.checkoutToInventorySpan c).startTimeUnixNano
        ≤ (Inter.inventoryServerSpan c).startTimeUnixNano ∧
    (Inter.inventoryServerSpan c).startTimeUnixNano
        ≤ (Inter.invCacheSpan c).startTimeUnixNano ∧
    (Inter.checkoutServerSpan c).startTimeUnixNano
        ≤ (Inter.producerSpan c).startTimeUnixNano ∧
    (Inter.producerSpan c).startTimeUnixNano
        ≤ (Inter.workerConsumeSpan c).startTimeUnixNano ∧
    (Inter.workerConsumeSpan c).startTimeUnixNano
        ≤ (Inter.workerDbSpan c).startTimeUnixNano ∧
    (Inter.edgeToCheckoutSpan c).endTimeUnixNano
        ≤ (Inter.rootSpan c).endTimeUnixNano ∧
    (Inter.checkoutServerSpan c).endTimeUnixNano
        ≤ (Inter.edgeToCheckoutSpan c).endTimeUnixNano ∧
    (Inter.paymentsServerSpan c).endTimeUnixNano
        ≤ (Inter.checkoutToPaymentsSpan c).endTimeUnixNano ∧
    (Inter.inventoryServerSpan c).endTimeUnixNano
        ≤ (Inter.checkoutToInventorySpan c).endTimeUnixNano ∧
    (Inter.checkoutDbSpan c).endTimeUnixNano
        ≤ (Inter.checkoutServerSpan c).endTimeUnixNano := by
  cases h
  simp only [Inter.rootSpan, Inter.edgeToCheckoutSpan, Inter.checkoutServerSpan,
    Inter.checkoutDbSpan, Inter.checkoutToPaymentsSpan, Inter.paymentsServerSpan,
    Inter.paymentsDbSpan, Inter.checkoutToInventorySpan,
    Inter.inventoryServerSpan, Inter.invCacheSpan, Inter.producerSpan,
    Inter.workerConsumeSpan, Inter.workerDbSpan, span,
    Inter.root_end, Inter.edge_to_checkout_start, Inter.edge_to_checkout_end,
    Inter.checkout_server_start, Inter.checkout_server_end,
    Inter.checkout_db_start, Inter.checkout_db_end,
    Inter.checkout_to_payments_start, Inter.checkout_to_payments_end,
    Inter.payments_server_start, Inter.payments_server_end,
    Inter.payments_db_start, Inter.payments_db_end,
    Inter.checkout_to_inventory_start, Inter.checkout_to_inventory_end,
    Inter.inventory_server_start, Inter.inventory_server_end,
    Inter.inv_cache_start, Inter.inv_cache_end,
    Inter.producer_start, Inter.producer_end,
    Inter.worker_start, Inter.worker_end,
    Inter.worker_db_start, Inter.worker_db_end,
    ensure_end, NS_PER_MS]
  refine ⟨?_, ?_, ?_, ?_, ?_, ?_, ?_, ?_, ?_, ?_, ?_, ?_, ?_, ?_, ?_, ?_,
    ?_⟩ <;>
    (repeat' split) <;> omega

/-- Witness for C1 (amended) at a concrete in-range tape: the clamped
checkout server span ends no later than its parent checkout RPC span. -/
theorem C1_child_timing_witness :
    (Inter.checkoutServerSpan sampleInterCtx).endTimeUnixNano
      ≤ (Inter.edgeToCheckoutSpan sampleInterCtx).endTimeUnixNano :=
  (C1_child_timing sampleInterCtx (by constructor <;> decide)).2.2.2.2.2.2.2.2.2.2.2.2.2.1

/-- C7: for every batch, `span_count` equals the sum of span-list lengths
across the emitted resource groups, `resource_span_count` equals the number
of (service, trace) groups emitted, and no emitted group has an empty span
list (services producing no spans in a trace contribute no group). -/
theorem C7_batch_statistics (cfg : Config) (now : Int)
    (rands : List TraceRand) :
    (build_payload cfg now rands).2.span_count
      = groupsSpanSum (build_payload cfg now rands).1.resourceSpans ∧
    (build_payload cfg now rands).2.resource_span_count
      = (build_payload cfg now rands).1.resourceSpans.length ∧
    ∀ g ∈ (build_payload cfg now rands).1.resourceSpans,
      ∀ ss ∈ g.scopeSpans, ss.spans ≠ [] := by
  refine ⟨?_, rfl, ?_⟩
  · have h := foldl_payloadStep_spanSum cfg now rands.enum ([], 0, 0)
    simpa [build_payload, groupsSpanSum] using h
  · exact foldl_payloadStep_ne cfg now rands.enum ([], 0, 0) (by simp)

/-- Witness for C7 on a one-trace batch. -/
theorem C7_batch_statistics_witness :
    (build_payload sampleCfg0 0 [sampleTraceRand]).2.span_count
      = groupsSpanSum (build_payload sampleCfg0 0 [sampleTraceRand]).1.resourceSpans :=
  (C7_batch_statistics sampleCfg0 0 [sampleTraceRand]).1

/-- C4: the attribute builder maps each value type to exactly one tagged wire
representation whose tag matches the type — booleans to the boolean field
(never the integer field), integers to the decimal-string `intValue`
encoding, floats to the numeric field, strings to the string field — and the
original semantic value is recovered by decoding (`otlp_decode` is a left
inverse, hence `otlp_value` is injective). -/
theorem C4_value_roundtrip :
    (∀ v : PyVal, otlp_decode (otlp_value v) = v) ∧
    (∀ b : Bool, otlp_value (.bool b) = .boolValue b) ∧
    (∀ n : Int, otlp_value (.int n) = .intValue (intToString n)) ∧
    (∀ q : Rat, otlp_value (.float q) = .doubleValue q) ∧
    (∀ s : String, otlp_value (.str s) = .stringValue s) ∧
    Function.Injective otlp_value := by
  have hrt : ∀ v : PyVal, otlp_decode (otlp_value v) = v := by
    intro v
    cases v with
    | bool b => rfl
    | int n =>
      show PyVal.int (parseIntString (intToString n)) = PyVal.int n
      rw [parseIntString_intToString]
    | float q => rfl
    | str s => rfl
  exact ⟨hrt, fun b => rfl, fun n => rfl, fun q => rfl, fun s => rfl,
    Function.LeftInverse.injective hrt⟩

set_option maxHeartbeats 2000000 in
/-- C8: a span carries `parentSpanId` exactly when a non-empty parent id was
supplied (root spans omit it); in both topologies the generated spans are
exactly those of the generation-order list, and every parent reference that
is present equals the span id of a span generated earlier in the same
trace. -/
theorem C8_parent_references (batch : Int) (tid sid nm : String) (s e : Int)
    (k : Nat) (pid : String) (attrs : List Attr) (err : Bool)
    (cs : SingleCtx) (hs : cs.r.Valid) (ci : InterCtx) (hi : ci.r.Valid)
    (h1 : ci.edge_service ≠ Inter.checkoutName ci.servicePrefix)
    (h2 : ci.edge_service ≠ Inter.paymentsName ci.servicePrefix)
    (h3 : ci.edge_service ≠ Inter.inventoryName ci.servicePrefix)
    (h4 : ci.edge_service ≠ Inter.workerName ci.servicePrefix) :
    ((span batch tid sid nm s e k pid attrs err).parentSpanId
        = if pid = "" then none else some pid) ∧
    (∀ sp : Span,
      (∃ g ∈ build_single_service_trace cs, sp ∈ g.2)
        ↔ sp ∈ singleSpansInOrder cs) ∧
    (∀ sp : Span,
      (∃ g ∈ build_interservice_trace ci, sp ∈ g.2)
        ↔ sp ∈ interSpansInOrder ci) ∧
    (∀ i : Nat, ∀ sp : Span, ∀ p : String,
      (singleSpansInOrder cs).get? i = some sp →
      sp.parentSpanId = some p →
      p ∈ ((singleSpansInOrder cs).take i).map Span.spanId) ∧
    (∀ i : Nat, ∀ sp : Span, ∀ p : String,
      (interSpansInOrder ci).get? i = some sp →
      sp.parentSpanId = some p →
      p ∈ ((interSpansInOrder ci).take i).map Span.spanId) := by
  obtain ⟨P0, P1, P2, P3, P4, P5, P6, P7, P8, P9, P10, P11, P12⟩ :=
    inter_parents ci hi
  refine ⟨rfl, ?_, ?_, ?_, ?_⟩
  · intro sp
    simp only [build_single_service_trace, singleSpansInOrder,
      List.mem_singleton, List.mem_cons, List.not_mem_nil, or_false,
      exists_eq_left]
  · intro sp
    rw [build_interservice_trace_eq ci h1 h2 h3 h4]
    rcases hbr : ci.r.msg_branch with _ | _ <;>
      simp only [hbr, if_false, if_true, Bool.false_eq_true, interSpansInOrder,
        List.mem_cons, List.mem_append, List.mem_singleton,
        List.not_mem_nil, or_false, false_or, List.append_nil,
        exists_eq_or_imp, exists_eq_left] <;>
      tauto
  · intro i sp p hget hp
    have Q0 : (Single.rootSpan cs).parentSpanId = none := by
      simp [Single.rootSpan, span]
    have Q1 : (Single.dbSpan cs).parentSpanId = some cs.r.root_span_id := by
      simp [Single.dbSpan, span, hs.root_id_ne]
    have Q2 : (Single.cacheSpan cs).parentSpanId
        = some cs.r.root_span_id := by
      simp [Single.cacheSpan, span, hs.root_id_ne]
    have U0 : (Single.rootSpan cs).spanId = cs.r.root_span_id := rfl
    have U1 : (Single.dbSpan cs).spanId = cs.r.db_span_id := rfl
    have hlen : i < 3 := by
      by_contra hge
      push_neg at hge
      have hnone : (singleSpansInOrder cs).get? i = none :=
        List.get?_eq_none.mpr (by simpa [singleSpansInOrder] using hge)
      rw [hnone] at hget
      exact Option.noConfusion hget
    unfold singleSpansInOrder at hget ⊢
    interval_cases i <;>
      simp only [List.get?] at hget <;>
      obtain rfl := Option.some.inj hget <;>
      first
        | (rw [Q0] at hp
           exact Option.noConfusion hp)
        | (first
            | rw [Q1] at hp
            | rw [Q2] at hp
           obtain rfl := Option.some.inj hp
           simp only [List.take_succ_cons, List.take_zero, List.map_cons,
             List.map_nil, U0, U1]
           simp)
  · intro i sp p hget hp
    have S0 : (Inter.rootSpan ci).spanId = ci.r.root_span_id := rfl
    have S1 : (Inter.edgeToCheckoutSpan ci).spanId
        = ci.r.edge_to_checkout_id := rfl
    have S2 : (Inter.checkoutServerSpan ci).spanId
        = ci.r.checkout_server_id := rfl
    have S3 : (Inter.checkoutDbSpan ci).spanId = ci.r.checkout_db_id := rfl
    have S4 : (Inter.checkoutToPaymentsSpan ci).spanId
        = ci.r.checkout_to_payments_id := rfl
    have S5 : (Inter.paymentsServerSpan ci).spanId
        = ci.r.payments_server_id := rfl
    have S6 : (Inter.paymentsDbSpan ci).spanId = ci.r.payments_db_id := rfl
    have S7 : (Inter.checkoutToInventorySpan ci).spanId
        = ci.r.checkout_to_inventory_id := rfl
    have S8 : (Inter.inventoryServerSpan ci).spanId
        = ci.r.inventory_server_id := rfl
    have S9 : (Inter.invCacheSpan ci).spanId = ci.r.inv_cache_id := rfl
    have S10 : (Inter.producerSpan ci).spanId = ci.r.producer_span_id := rfl
    have S11 : (Inter.workerConsumeSpan ci).spanId
        = ci.r.worker_consume_id := rfl
    have S12 : (Inter.workerDbSpan ci).spanId = ci.r.worker_db_id := rfl
    rcases hbr : ci.r.msg_branch with _ | _
    · rw [interSpansInOrder, hbr] at hget ⊢
      simp only [Bool.false_eq_true, if_false, List.append_nil] at hget ⊢
      have hlen : i < 10 := by
        by_contra hge
        push_neg at hge
        have hnone : ([Inter.rootSpan ci, Inter.edgeToCheckoutSpan ci,
            Inter.checkoutServerSpan ci, Inter.checkoutDbSpan ci,
            Inter.checkoutToPaymentsSpan ci, Inter.paymentsServerSpan ci,
            Inter.paymentsDbSpan ci, Inter.checkoutToInventorySpan ci,
            Inter.inventoryServerSpan ci, Inter.invCacheSpan ci]).get? i
            = none :=
          List.get?_eq_none.mpr (by simpa using hge)
        rw [hnone] at hget
        exact Option.noConfusion hget
      interval_cases i <;>
        simp only [List.get?] at hget <;>
        obtain rfl := Option.some.inj hget <;>
        first
          | (rw [P0] at hp
             exact Option.noConfusion hp)
          | (first
              | rw [P1] at hp
              | rw [P2] at hp
              | rw [P3] at hp
              | rw [P4] at hp
              | rw [P5] at hp
              | rw [P6] at hp
              | rw [P7] at hp
              | rw [P8] at hp
              | rw [P9] at hp
             obtain rfl := Option.some.inj hp
             simp only [List.take_succ_cons, List.take_zero, List.map_cons,
               List.map_nil, S0, S1, S2, S3, S4, S5, S6, S7, S8, S9]
             simp)
    · rw [interSpansInOrder, hbr] at hget ⊢
      simp only [if_true] at hget ⊢
      have hlen : i < 13 := by
        by_contra hge
        push_neg at hge
        have hnone : ([Inter.rootSpan ci, Inter.edgeToCheckoutSpan ci,
            Inter.checkoutServerSpan ci, Inter.checkoutDbSpan ci,
            Inter.checkoutToPaymentsSpan ci, Inter.paymentsServerSpan ci,
            Inter.paymentsDbSpan ci, Inter.checkoutToInventorySpan ci,
            Inter.inventoryServerSpan ci, Inter.invCacheSpan ci] ++
            [Inter.producerSpan ci, Inter.workerConsumeSpan ci,
             Inter.workerDbSpan ci]).get? i = none :=
          List.get?_eq_none.mpr (by simpa using hge)
        rw [hnone] at hget
        exact Option.noConfusion hget
      interval_cases i <;>
        simp only [List.cons_append, List.nil_append, List.get?] at hget ⊢ <;>
        obtain rfl := Option.some.inj hget <;>
        first
          | (rw [P0] at hp
             exact Option.noConfusion hp)
          | (first
              | rw [P1] at hp
              | rw [P2] at hp
              | rw [P3] at hp
              | rw [P4] at hp
              | rw [P5] at hp
              | rw [P6] at hp
              | rw [P7] at hp
              | rw [P8] at hp
              | rw [P9] at hp
              | rw [P10] at hp
              | rw [P11] at hp
              | rw [P12] at hp
             obtain rfl := Option.some.inj hp
             simp only [List.take_succ_cons, List.take_zero, List.map_cons,
               List.map_nil, S0, S1, S2, S3, S4, S5, S6, S7, S8, S9, S10,
               S11, S12]
             simp)

/-- Witness for C8 at concrete contexts: a span given a non-empty parent id
carries the corresponding `parentSpanId` field. -/
theorem C8_parent_references_witness :
    (span 0 "t" "x" "n" 0 1 1 "p" [] false).parentSpanId
      = if "p" = "" then none else some "p" :=
  (C8_parent_references 0 "t" "x" "n" 0 1 1 "p" [] false sampleSingleCtx
    (by constructor <;> decide) sampleInterCtx (by constructor <;> decide)
    (by decide) (by decide) (by decide) (by decide)).1

end OtelLoadgen
